import Mathlib

/-!
Verification of the EdgeVec benchmark regression checker
(`src/benches/check_regression.py`) against its natural-language
specification.

The Python script is embedded shallowly:

* JSON numbers are modelled as exact rationals (`ℚ`); Python float
  arithmetic is modelled as exact rational arithmetic, and the
  fixed-decimal formatting used inside human-readable reason strings is
  rendered with exact rationals instead of rounded decimals.
* A Criterion statistics entry (the JSON value sitting under a key such
  as "mean" or "std_dev") is a `StatVal`: either a JSON object with an
  optional "point_estimate" field and an optional confidence-interval
  "upper_bound" field, or any non-object value (JSON `null` included) --
  the script treats every non-object value alike via `isinstance`
  checks and `x is not None` guards.
* The per-benchmark filesystem probing of `check_regression`
  (lines 222-237: directory existence, then `find_criterion_estimate`)
  is modelled by the `RunData` datatype.
* Diagnostic `print` calls are side effects with no influence on any
  returned value; they are not modelled.
* The per-benchmark result dictionaries carry, besides `status`,
  `reason` and `checks`, bookkeeping fields (`current_p50`,
  `p50_ratio`, ...) that are consumed only by the report formatters;
  those reporting-only fields are not modelled.
-/

namespace EdgeVec

/-- Line 66 of the source: 10 percent regression tolerance for the median
(`P50_REGRESSION_THRESHOLD = 1.10`). -/
def P50_REGRESSION_THRESHOLD : ℚ := 1.1

/-- Line 67 of the source: 50 percent regression tolerance for the tail
(`P99_REGRESSION_THRESHOLD = 1.50`). -/
def P99_REGRESSION_THRESHOLD : ℚ := 1.5

/-- Line 68 of the source: the tail estimate may be at most 5 times the median
(`P99_MEDIAN_RATIO_MAX = 5.0`). -/
def P99_MEDIAN_RATIO_MAX : ℚ := 5

/-- Line 72 of the source: tail estimated as mean plus 5 standard deviations
(`P99_STDDEV_MULTIPLIER = 5.0`). -/
def P99_STDDEV_MULTIPLIER : ℚ := 5

/-- Line 75 of the source: `SUPPORTED_UNITS = {"ns", "us", "ms", "s"}`.
The Python set is modelled as a list; only membership is ever used. -/
def SUPPORTED_UNITS : List String := ["ns", "us", "ms", "s"]

/-- One statistics entry of a Criterion `estimates.json` record: either a JSON
object carrying an optional `point_estimate` and an optional
`confidence_interval.upper_bound`, or any non-object value (including JSON
null), which the script's `isinstance(x, dict)` and `x is not None` guards
treat alike. -/
inductive StatVal where
  | notObject
  | object (point_estimate : Option ℚ) (ci_upper_bound : Option ℚ)
  deriving DecidableEq, Repr

/-- A parsed `estimates.json` record (source header comment, lines 24-36):
optional `mean`, `median`, `std_dev` and `slope` entries. `none` means the
key is absent from the JSON object. -/
structure Estimates where
  mean : Option StatVal
  median : Option StatVal
  std_dev : Option StatVal
  slope : Option StatVal
  deriving DecidableEq, Repr

/-- Lines 113-127: `extract_median_ns`. Try `median.point_estimate` first;
when the key is absent, the value is not an object, or it has no
`point_estimate`, fall through to `slope.point_estimate` (the
`estimates["slope"] is not None` guard is subsumed by the non-object case);
otherwise return `None`. -/
def extract_median_ns (estimates : Estimates) : Option ℚ :=
  match estimates.median with
  | some (.object (some pe) _) => some pe
  | _ =>
    match estimates.slope with
    | some (.object (some pe) _) => some pe
    | _ => none

/-- Lines 156-166: the confidence-interval fallback block of
`extract_p99_ns`, which the primary strategy falls through to. In the
source: `upper = mean.get("confidence_interval", {}).get("upper_bound")`
followed by the truthiness test `if upper:` -- a missing upper bound
(`None`) and an upper bound equal to `0` are both falsy, so both yield
`(None, False)`. -/
def p99_fallback (estimates : Estimates) : Option ℚ × Bool :=
  match estimates.mean with
  | some (.object _ (some upper)) =>
      if upper = 0 then (none, false) else (some upper, true)
  | _ => (none, false)

/-- Lines 130-166: `extract_p99_ns`. Primary strategy: when both `mean` and
`std_dev` entries are present and are objects, read their point estimates
with default 0 (`mean.get("point_estimate", 0)`); if the mean is strictly
positive and the standard deviation nonnegative, the tail estimate is
`mean + P99_STDDEV_MULTIPLIER * std_dev`, flagged as estimated. Otherwise
fall through to the confidence-interval fallback. The `benchmark_name`
argument only feeds the diagnostic `print` calls, which are not modelled. -/
def extract_p99_ns (estimates : Estimates) (benchmark_name : String) :
    Option ℚ × Bool :=
  match estimates.mean, estimates.std_dev with
  | some (.object mp _), some (.object sp _) =>
      let mean_ns := mp.getD 0
      let std_dev_ns := sp.getD 0
      if 0 < mean_ns ∧ 0 ≤ std_dev_ns then
        (some (mean_ns + P99_STDDEV_MULTIPLIER * std_dev_ns), true)
      else
        p99_fallback estimates
  | _, _ => p99_fallback estimates

/-- Lines 178-188: the unit dispatch chain of `convert_ns_to_unit`, reached
only after the unit has been validated. The final `else` branch (line 188,
"Should never reach here") returns the value unchanged, as in the source. -/
def convert_supported (value_ns : ℚ) (unit : String) : ℚ :=
  if unit = "ns" then value_ns
  else if unit = "us" then value_ns / 1000
  else if unit = "ms" then value_ns / 1000000
  else if unit = "s" then value_ns / 1000000000
  else value_ns

/-- Line 176: the message of the `ValueError` raised for an unsupported unit
(the source lists the supported set via an f-string; the set's rendering is
fixed text here). -/
def unsupported_unit_msg (unit : String) : String :=
  "Unsupported unit " ++ unit ++ ". Supported: ns, us, ms, s"

/-- Lines 169-188: `convert_ns_to_unit`. Raising `ValueError` is modelled as
`Except.error`; a supported unit is dispatched to `convert_supported`. -/
def convert_ns_to_unit (value_ns : ℚ) (unit : String) : Except String ℚ :=
  if unit ∉ SUPPORTED_UNITS then Except.error (unsupported_unit_msg unit)
  else Except.ok (convert_supported value_ns unit)

/-- One entry of the `checks` list built by `check_regression`
(lines 296-353): a name, a pass flag and a human-readable reason. -/
structure Check where
  name : String
  passed : Bool
  reason : String
  deriving DecidableEq, Repr

/-- Boolean substring containment, the model of Python's `"Regression" in
c["name"]` (line 358): the pattern's characters form a contiguous infix of
the subject's characters. -/
def substr_mem (pat s : String) : Bool := decide (pat.data <:+: s.data)

/-- The per-benchmark verdict status set (section 4.4 of the spec). -/
inductive Status where
  | PASS
  | REGRESSION
  | FAIL
  | SKIP
  deriving DecidableEq, Repr

/-- Lines 355-362: fold the recorded checks into the overall status and
reason. With failing checks, the status is REGRESSION exactly when some
failing check's name contains "Regression", otherwise FAIL, and the reason
joins the failing reasons with "; "; with no failing check the verdict is
PASS / "All checks passed". -/
def determine_status (checks : List Check) : Status × String :=
  let failed := checks.filter fun c => !c.passed
  if failed = [] then (Status.PASS, "All checks passed")
  else
    (if failed.any fun c => substr_mem "Regression" c.name then Status.REGRESSION
     else Status.FAIL,
     String.intercalate "; " (failed.map Check.reason))

/-- One baseline entry (a JSON object in `baselines.json`). `none` models an
absent key. `legacy_tail` stands for a legacy alternate tail-expectation key
(spec section 4.2) that an entry may carry; the source never reads any such
key, which is exactly what claim C2 is about. -/
structure BenchConfig where
  unit : Option String
  p50 : Option ℚ
  p99 : Option ℚ
  hard_limit : Option ℚ
  legacy_tail : Option ℚ
  deriving DecidableEq, Repr

/-- Line 251: `baseline_p99 = config.get("p99", 0)` -- the tail expectation
of a baseline entry is read from the single key "p99", defaulting to 0. -/
def resolve_baseline_p99 (config : BenchConfig) : ℚ := config.p99.getD 0

/-- Line 296 and line 274: `current_median > hard_limit` with
`hard_limit = config.get("hard_limit", float("inf"))`. An absent hard limit
defaults to positive infinity, which a (finite) median never exceeds, so the
absent case is `false`. -/
def exceeds_hard_limit (hard_limit : Option ℚ) (current_median : ℚ) : Bool :=
  match hard_limit with
  | some limit => decide (limit < current_median)
  | none => false

/-- Rendering of the hard limit inside the hard-limit reason string
(`float("inf")` prints as `inf`). -/
def hard_limit_text (hard_limit : Option ℚ) : String :=
  match hard_limit with
  | some limit => toString limit
  | none => "inf"

/-- Lines 291-315 ("Check 1"): the median block, guarded by
`baseline_p50 > 0`. When the current median exceeds the hard limit, a
failing "P50 Hard Limit" check; `elif` the ratio strictly exceeds the
threshold, a failing "P50 Regression" check; `else` a passing
"P50 Regression" check (the three branches are mutually exclusive in the
source). -/
def p50_check (threshold baseline_p50 : ℚ) (hard_limit : Option ℚ)
    (unit : String) (current_median : ℚ) : List Check :=
  if 0 < baseline_p50 then
    let p50_ratio := current_median / baseline_p50
    if exceeds_hard_limit hard_limit current_median then
      [{ name := "P50 Hard Limit", passed := false,
         reason := "Exceeds hard limit (" ++ toString current_median ++ " > "
           ++ hard_limit_text hard_limit ++ " " ++ unit ++ ")" }]
    else if threshold < p50_ratio then
      [{ name := "P50 Regression", passed := false,
         reason := "P50 " ++ toString p50_ratio ++ " of baseline (threshold: "
           ++ toString threshold ++ ")" }]
    else
      [{ name := "P50 Regression", passed := true,
         reason := "P50 " ++ toString p50_ratio ++ " of baseline" }]
  else []

/-- Lines 317-334 ("Check 2"): the tail block, guarded by
`current_p99 is not None` and `baseline_p99 > 0`: failing "P99 Regression"
exactly when the tail ratio strictly exceeds `P99_REGRESSION_THRESHOLD`. -/
def p99_check (baseline_p99 : ℚ) (current_p99 : Option ℚ) : List Check :=
  match current_p99 with
  | some p99 =>
      if 0 < baseline_p99 then
        let p99_ratio := p99 / baseline_p99
        if P99_REGRESSION_THRESHOLD < p99_ratio then
          [{ name := "P99 Regression", passed := false,
             reason := "P99 " ++ toString p99_ratio
               ++ " of baseline (threshold: "
               ++ toString P99_REGRESSION_THRESHOLD ++ ")" }]
        else
          [{ name := "P99 Regression", passed := true,
             reason := "P99 " ++ toString p99_ratio ++ " of baseline" }]
      else []
  | none => []

/-- Lines 336-353 ("Check 3"): the sanity block, guarded by
`current_p99 is not None` and `current_median > 0`: failing "P99/P50 Ratio"
exactly when the ratio strictly exceeds `P99_MEDIAN_RATIO_MAX`. -/
def ratio_check (current_median : ℚ) (current_p99 : Option ℚ) : List Check :=
  match current_p99 with
  | some p99 =>
      if 0 < current_median then
        let p99_p50_ratio := p99 / current_median
        if P99_MEDIAN_RATIO_MAX < p99_p50_ratio then
          [{ name := "P99/P50 Ratio", passed := false,
             reason := "P99/P50 ratio " ++ toString p99_p50_ratio
               ++ "x exceeds " ++ toString P99_MEDIAN_RATIO_MAX
               ++ "x limit" }]
        else
          [{ name := "P99/P50 Ratio", passed := true,
             reason := "P99/P50 ratio " ++ toString p99_p50_ratio
               ++ "x (OK)" }]
      else []
  | none => []

/-- Lines 291-353: the checks recorded by the evaluation stage, in source
order (each block appends its check, if any, to `result["checks"]`). -/
def evaluate_checks (threshold baseline_p50 baseline_p99 : ℚ)
    (hard_limit : Option ℚ) (unit : String)
    (current_median : ℚ) (current_p99 : Option ℚ) : List Check :=
  p50_check threshold baseline_p50 hard_limit unit current_median
    ++ p99_check baseline_p99 current_p99
    ++ ratio_check current_median current_p99

/-- One per-benchmark verdict: the `status`, `reason` and `checks` fields of
the result dictionary (SKIP and early-FAIL verdicts carry no `checks` key in
the source; they are modelled with an empty list). -/
structure BenchResult where
  status : Status
  reason : String
  checks : List Check
  deriving DecidableEq, Repr

/-- What the filesystem holds for one benchmark (lines 222-237): the
benchmark directory may be missing (`noPath`), `find_criterion_estimate`
may find no `estimates.json` in `new/` or `base/` (`noEstimates`), or a
record is parsed. -/
inductive RunData where
  | noPath
  | noEstimates
  | estimates (est : Estimates)
  deriving DecidableEq, Repr

/-- Lines 220-364: the body of the `check_regression` loop for one benchmark.
Returns the verdict together with the flag telling whether this iteration
sets `all_passed = False` (which the source does exactly on the two early
FAIL verdicts and on every append of a failing check). In the source
`extract_p99_ns` is called before the median-absence test, but its only
effect there is diagnostic printing, so the order is immaterial. -/
def check_benchmark (threshold : ℚ) (strict_p99 : Bool) (benchmark_name : String)
    (config : BenchConfig) (run : RunData) : BenchResult × Bool :=
  match run with
  | .noPath =>
      ({ status := .SKIP, reason := "No results found", checks := [] }, false)
  | .noEstimates =>
      ({ status := .SKIP, reason := "Could not parse estimates.json",
         checks := [] }, false)
  | .estimates est =>
      match extract_median_ns est with
      | none =>
          ({ status := .SKIP, reason := "Could not extract median from estimates",
             checks := [] }, false)
      | some current_median_ns =>
          let current_p99_ns := (extract_p99_ns est benchmark_name).1
          let baseline_p99 := resolve_baseline_p99 config
          if current_p99_ns = none ∧ 0 < baseline_p99 ∧ strict_p99 = true then
            ({ status := .FAIL,
               reason := "Could not extract P99 from estimates (baseline requires P99)",
               checks := [] }, true)
          else
            let unit := config.unit.getD "ns"
            if unit ∈ SUPPORTED_UNITS then
              let baseline_p50 := config.p50.getD 0
              let current_median := convert_supported current_median_ns unit
              let current_p99 :=
                match current_p99_ns with
                | some v => if v = 0 then none else some (convert_supported v unit)
                | none => none
              let checks := evaluate_checks threshold baseline_p50 baseline_p99
                config.hard_limit unit current_median current_p99
              ({ status := (determine_status checks).1,
                 reason := (determine_status checks).2,
                 checks := checks },
               checks.any fun c => !c.passed)
            else
              ({ status := .FAIL,
                 reason := "Unsupported unit in baseline: " ++ unit,
                 checks := [] }, true)

/-- Lines 195-366: `check_regression`. The benchmark mapping is modelled as
an insertion-ordered association list; the filesystem is the function
`runs` from benchmark name to `RunData`. `all_passed` starts `true` and is
set to `false` exactly at the iterations whose flag is `true`, so it is the
conjunction of the negated per-iteration flags. -/
def check_regression (threshold : ℚ) (strict_p99 : Bool)
    (runs : String → RunData) :
    List (String × BenchConfig) → Bool × List (String × BenchResult)
  | [] => (true, [])
  | (name, config) :: rest =>
      let head := check_benchmark threshold strict_p99 name config (runs name)
      let tail := check_regression threshold strict_p99 runs rest
      (!head.2 && tail.1, (name, head.1) :: tail.2)

/-!
Statement-level helper predicates and concrete instances used by the
claims, followed by the claims themselves.
-/

/-- Characterization of the primary tail-estimation strategy of
`extract_p99_ns` (lines 142-154): it applies exactly when both `mean` and
`std_dev` are present objects whose point estimates (defaulted to 0) are
respectively strictly positive and nonnegative. Used to state claim C10. -/
def p99_primary_applies (estimates : Estimates) : Bool :=
  match estimates.mean, estimates.std_dev with
  | some (.object mp _), some (.object sp _) =>
      decide (0 < mp.getD 0 ∧ 0 ≤ sp.getD 0)
  | _, _ => false

/-- The upper confidence bound of the `mean` entry, as read by the fallback
of `extract_p99_ns` (lines 160-161): `none` when the `mean` key is absent,
is not an object, or carries no usable upper bound. Used to state
claim C10. -/
def mean_ci_upper (estimates : Estimates) : Option ℚ :=
  match estimates.mean with
  | some (.object _ u) => u
  | _ => none

theorem p99_fallback_of_primary_not_applies (est : Estimates)
    (benchmark_name : String) (h : p99_primary_applies est = false) :
    extract_p99_ns est benchmark_name = p99_fallback est := by
  unfold extract_p99_ns
  unfold p99_primary_applies at h
  obtain ⟨mean, median, std_dev, slope⟩ := est
  rcases mean with _ | (_ | ⟨mp, mu⟩) <;>
    rcases std_dev with _ | (_ | ⟨sp, su⟩) <;>
    simp_all

/-- Claim C9: for every nonnegative value and every unit outside the
supported set, `convert_ns_to_unit` returns an error whose message contains
the offending unit (and never a value); every supported unit is scaled by
its fixed factor, and "ns" is the identity. -/
theorem claim_c9 (v : ℚ) (unit : String) (hv : 0 ≤ v) :
    (unit ∉ SUPPORTED_UNITS →
      convert_ns_to_unit v unit = Except.error (unsupported_unit_msg unit) ∧
        unit.data <:+: (unsupported_unit_msg unit).data) ∧
    convert_ns_to_unit v "ns" = Except.ok v ∧
    convert_ns_to_unit v "us" = Except.ok (v / 1000) ∧
    convert_ns_to_unit v "ms" = Except.ok (v / 1000000) ∧
    convert_ns_to_unit v "s" = Except.ok (v / 1000000000) := by
  refine ⟨fun h => ⟨by simp [convert_ns_to_unit, h], ?_⟩, ?_, ?_, ?_, ?_⟩
  · refine ⟨("Unsupported unit ").data, (". Supported: ns, us, ms, s").data, ?_⟩
    simp [unsupported_unit_msg, String.data_append]
  · simp [convert_ns_to_unit, convert_supported, SUPPORTED_UNITS]
  · simp [convert_ns_to_unit, convert_supported, SUPPORTED_UNITS]
  · simp [convert_ns_to_unit, convert_supported, SUPPORTED_UNITS]
  · simp [convert_ns_to_unit, convert_supported, SUPPORTED_UNITS]

/-- Witness for C9 at the concrete inputs v = 7 and unit "bogus". -/
theorem claim_c9_witness :
    convert_ns_to_unit 7 "bogus" = Except.error (unsupported_unit_msg "bogus") ∧
      ("bogus").data <:+: (unsupported_unit_msg "bogus").data ∧
      convert_ns_to_unit 7 "ns" = Except.ok 7 := by
  have h := claim_c9 7 "bogus" (by norm_num)
  exact ⟨(h.1 (by decide)).1, (h.1 (by decide)).2, h.2.1⟩

/-- Claim C7: when both the mean and std_dev point estimates are present,
the mean strictly positive and the std_dev nonnegative, tail extraction
returns mean + P99_STDDEV_MULTIPLIER * std_dev (the multiplier is 5),
flagged as estimated. -/
theorem claim_c7 (est : Estimates) (benchmark_name : String)
    (mean_pe std_pe : ℚ) (mu su : Option ℚ)
    (hm : est.mean = some (.object (some mean_pe) mu))
    (hs : est.std_dev = some (.object (some std_pe) su))
    (hpos : 0 < mean_pe) (hnn : 0 ≤ std_pe) :
    extract_p99_ns est benchmark_name =
      (some (mean_pe + P99_STDDEV_MULTIPLIER * std_pe), true) := by
  unfold extract_p99_ns
  rw [hm, hs]
  simp [hpos, hnn]

/-- Witness for C7: the run summary of the spec's worked scenario
(mean 100000, std_dev 20000) yields the tail estimate 200000. -/
theorem claim_c7_witness :
    extract_p99_ns
      { mean := some (.object (some 100000) none), median := none,
        std_dev := some (.object (some 20000) none), slope := none } "b"
      = (some 200000, true) := by
  have h := claim_c7
    { mean := some (.object (some 100000) none), median := none,
      std_dev := some (.object (some 20000) none), slope := none }
    "b" 100000 20000 none none rfl rfl (by norm_num) (by norm_num)
  rw [h]
  norm_num [P99_STDDEV_MULTIPLIER]

/-- Claim C10: when the primary mean+std_dev strategy does not apply and
the upper confidence bound of the mean is missing or exactly 0, tail
extraction returns no value and the estimated flag is false (it does not
return a tail of 0 flagged as estimated). -/
theorem claim_c10 (est : Estimates) (benchmark_name : String)
    (h1 : p99_primary_applies est = false)
    (h2 : mean_ci_upper est = none ∨ mean_ci_upper est = some 0) :
    extract_p99_ns est benchmark_name = (none, false) := by
  rw [p99_fallback_of_primary_not_applies est benchmark_name h1]
  unfold p99_fallback
  unfold mean_ci_upper at h2
  obtain ⟨mean, median, std_dev, slope⟩ := est
  rcases mean with _ | (_ | ⟨mp, mu⟩) <;> simp_all
  rcases mu with _ | u <;> simp_all

/-- Witness for C10: a summary whose mean entry is an object with neither a
point estimate nor a confidence interval yields (none, false). -/
theorem claim_c10_witness :
    extract_p99_ns
      { mean := some (.object none none), median := none, std_dev := none,
        slope := none } "b" = (none, false) :=
  claim_c10 _ "b" (by decide) (Or.inl rfl)

/-- A baseline entry carrying only a legacy tail key: the current key "p99"
is absent and the legacy alternate key holds 400. -/
def c2_entry : BenchConfig :=
  { unit := some "ns", p50 := some 100, p99 := none, hard_limit := none,
    legacy_tail := some 400 }

/-- Counterexample to claim C2 as stated: for the entry carrying only the
legacy key with value 400, the source's tail resolution
(`config.get("p99", 0)`, line 251) yields 0, not 400 -- no legacy alternate
field name is ever consulted. -/
theorem claim_c2_counterexample :
    c2_entry.p99 = none ∧ c2_entry.legacy_tail = some 400 ∧
      resolve_baseline_p99 c2_entry = 0 ∧ (0 : ℚ) ≠ 400 :=
  ⟨rfl, rfl, rfl, by norm_num⟩

/-- Claim C2 as amended: the tail expectation of a baseline entry is
resolved from the single current field name "p99", defaulting to 0 when it
is absent; a legacy alternate field never influences the result, so an
entry carrying only a legacy key yields 0. -/
theorem claim_c2 (config : BenchConfig) :
    (∀ v, config.p99 = some v → resolve_baseline_p99 config = v) ∧
    (config.p99 = none → resolve_baseline_p99 config = 0) ∧
    (∀ legacy, resolve_baseline_p99 { config with legacy_tail := legacy } =
      resolve_baseline_p99 config) :=
  ⟨fun v hv => by simp [resolve_baseline_p99, hv],
   fun h => by simp [resolve_baseline_p99, h],
   fun _ => rfl⟩

/-- Witness for C2 (amended) at the concrete legacy-only entry. -/
theorem claim_c2_witness : resolve_baseline_p99 c2_entry = 0 :=
  (claim_c2 c2_entry).2.1 rfl

theorem p50_check_mem {threshold baseline_p50 : ℚ} {hard_limit : Option ℚ}
    {unit : String} {current_median : ℚ} {c : Check}
    (hc : c ∈ p50_check threshold baseline_p50 hard_limit unit current_median) :
    0 < baseline_p50 ∧
      ((exceeds_hard_limit hard_limit current_median = true ∧
          c.name = "P50 Hard Limit" ∧ c.passed = false) ∨
       (exceeds_hard_limit hard_limit current_median = false ∧
          c.name = "P50 Regression" ∧
          (c.passed = true ↔ ¬ threshold < current_median / baseline_p50))) := by
  simp only [p50_check] at hc
  split_ifs at hc with h50 hx ht
  · rw [List.mem_singleton] at hc
    subst hc
    exact ⟨h50, Or.inl ⟨hx, rfl, rfl⟩⟩
  · rw [List.mem_singleton] at hc
    subst hc
    exact ⟨h50, Or.inr ⟨by simpa using hx, rfl, by simp [ht]⟩⟩
  · rw [List.mem_singleton] at hc
    subst hc
    exact ⟨h50, Or.inr ⟨by simpa using hx, rfl, by simp [ht]⟩⟩
  · simp at hc

theorem p99_check_mem {baseline_p99 : ℚ} {current_p99 : Option ℚ} {c : Check}
    (hc : c ∈ p99_check baseline_p99 current_p99) :
    ∃ p, current_p99 = some p ∧ 0 < baseline_p99 ∧
      c.name = "P99 Regression" ∧
      (c.passed = true ↔ ¬ P99_REGRESSION_THRESHOLD < p / baseline_p99) := by
  rcases current_p99 with _ | p
  · simp [p99_check] at hc
  · simp only [p99_check] at hc
    split_ifs at hc with h99 ht
    · rw [List.mem_singleton] at hc
      subst hc
      exact ⟨p, rfl, h99, rfl, by simp [ht]⟩
    · rw [List.mem_singleton] at hc
      subst hc
      exact ⟨p, rfl, h99, rfl, by simp [ht]⟩
    · simp at hc

theorem ratio_check_mem {current_median : ℚ} {current_p99 : Option ℚ} {c : Check}
    (hc : c ∈ ratio_check current_median current_p99) :
    ∃ p, current_p99 = some p ∧ 0 < current_median ∧
      c.name = "P99/P50 Ratio" ∧
      (c.passed = true ↔ ¬ P99_MEDIAN_RATIO_MAX < p / current_median) := by
  rcases current_p99 with _ | p
  · simp [ratio_check] at hc
  · simp only [ratio_check] at hc
    split_ifs at hc with hm ht
    · rw [List.mem_singleton] at hc
      subst hc
      exact ⟨p, rfl, hm, rfl, by simp [ht]⟩
    · rw [List.mem_singleton] at hc
      subst hc
      exact ⟨p, rfl, hm, rfl, by simp [ht]⟩
    · simp at hc

/-- Membership in the concatenated check list splits into the three
blocks. -/
theorem evaluate_checks_mem {threshold baseline_p50 baseline_p99 : ℚ}
    {hard_limit : Option ℚ} {unit : String} {current_median : ℚ}
    {current_p99 : Option ℚ} {c : Check}
    (hc : c ∈ evaluate_checks threshold baseline_p50 baseline_p99 hard_limit
        unit current_median current_p99) :
    c ∈ p50_check threshold baseline_p50 hard_limit unit current_median ∨
      c ∈ p99_check baseline_p99 current_p99 ∨
      c ∈ ratio_check current_median current_p99 := by
  unfold evaluate_checks at hc
  rcases List.mem_append.mp hc with h | h3
  · rcases List.mem_append.mp h with h1 | h2
    · exact Or.inl h1
    · exact Or.inr (Or.inl h2)
  · exact Or.inr (Or.inr h3)

/-- The baseline entry of the C3 counterexample: it declares a hard ceiling
of 10 but a baseline median p50 of 0. -/
def c3_entry : BenchConfig :=
  { unit := some "ns", p50 := some 0, p99 := none, hard_limit := some 10,
    legacy_tail := none }

/-- The run summary of the C3 counterexample: a median of 20 ns and nothing
else. -/
def c3_estimates : Estimates :=
  { mean := none, median := some (.object (some 20) none), std_dev := none,
    slope := none }

/-- Counterexample to claim C3 as stated: the baseline declares the hard
ceiling 10, the converted current median 20 strictly exceeds it, the
benchmark reaches the check-evaluation stage (its verdict is an evaluated
PASS), yet no "P50 Hard Limit" check is recorded at all -- because the
hard-limit test sits inside the `baseline_p50 > 0` guard (line 292) and
this entry has p50 = 0. The claim's "regardless of the value of the
baseline median p50" is therefore false. -/
theorem claim_c3_counterexample :
    c3_entry.hard_limit = some 10 ∧ (10 : ℚ) < 20 ∧
    (check_benchmark 1.1 true "b" c3_entry (.estimates c3_estimates)).1.checks
      = [] ∧
    (check_benchmark 1.1 true "b" c3_entry (.estimates c3_estimates)).1.status
      = Status.PASS :=
  ⟨rfl, by norm_num, by decide, by decide⟩

/-- Claim C3 as amended: for every benchmark that reaches the
check-evaluation stage, if additionally the baseline median p50 is strictly
positive, the baseline declares a hard ceiling and the converted current
median strictly exceeds it, then a failing check named "P50 Hard Limit" is
recorded. -/
theorem claim_c3 (threshold baseline_p50 baseline_p99 limit : ℚ)
    (unit : String) (current_median : ℚ) (current_p99 : Option ℚ)
    (hp50 : 0 < baseline_p50) (hexceed : limit < current_median) :
    { name := "P50 Hard Limit", passed := false,
      reason := "Exceeds hard limit (" ++ toString current_median ++ " > "
        ++ hard_limit_text (some limit) ++ " " ++ unit ++ ")" : Check }
      ∈ evaluate_checks threshold baseline_p50 baseline_p99 (some limit) unit
          current_median current_p99 := by
  have hx : exceeds_hard_limit (some limit) current_median = true := by
    simp [exceeds_hard_limit, hexceed]
  unfold evaluate_checks
  refine List.mem_append_left _ (List.mem_append_left _ ?_)
  unfold p50_check
  rw [if_pos hp50]
  simp only [hx, if_true]
  exact List.mem_singleton_self _

/-- Witness for C3 (amended): with baseline p50 = 5, hard limit 10 and
current median 20, the failing hard-limit check is recorded. -/
theorem claim_c3_witness :
    { name := "P50 Hard Limit", passed := false,
      reason := "Exceeds hard limit (20 > 10 ns)" : Check }
      ∈ evaluate_checks 1.1 5 0 (some 10) "ns" 20 none := by
  have h := claim_c3 1.1 5 0 10 "ns" 20 none (by norm_num) (by norm_num)
  simpa using h

/-- Claim C4: whenever a failing "P50 Hard Limit" check is recorded by the
check-evaluation stage, no check named "P50 Regression" (failing or
passing) is recorded for the same measurement. -/
theorem claim_c4 (threshold baseline_p50 baseline_p99 : ℚ)
    (hard_limit : Option ℚ) (unit : String) (current_median : ℚ)
    (current_p99 : Option ℚ)
    (hfail : ∃ c ∈ evaluate_checks threshold baseline_p50 baseline_p99
        hard_limit unit current_median current_p99,
        c.name = "P50 Hard Limit" ∧ c.passed = false) :
    ∀ c ∈ evaluate_checks threshold baseline_p50 baseline_p99 hard_limit unit
        current_median current_p99, c.name ≠ "P50 Regression" := by
  obtain ⟨d, hd, hdname, -⟩ := hfail
  have hx : exceeds_hard_limit hard_limit current_median = true := by
    rcases evaluate_checks_mem hd with h | h | h
    · rcases (p50_check_mem h).2 with ⟨hx, -, -⟩ | ⟨-, hn, -⟩
      · exact hx
      · rw [hdname] at hn
        exact absurd hn (by decide)
    · obtain ⟨p, -, -, hn, -⟩ := p99_check_mem h
      rw [hdname] at hn
      exact absurd hn (by decide)
    · obtain ⟨p, -, -, hn, -⟩ := ratio_check_mem h
      rw [hdname] at hn
      exact absurd hn (by decide)
  intro c hc
  rcases evaluate_checks_mem hc with h | h | h
  · rcases (p50_check_mem h).2 with ⟨-, hn, -⟩ | ⟨hx0, -, -⟩
    · rw [hn]
      decide
    · rw [hx] at hx0
      exact absurd hx0 (by decide)
  · obtain ⟨p, -, -, hn, -⟩ := p99_check_mem h
    rw [hn]
    decide
  · obtain ⟨p, -, -, hn, -⟩ := ratio_check_mem h
    rw [hn]
    decide

/-- Witness for C4: with baseline p50 = 5, hard limit 10 and current median
20, the hard-limit check fails and no check in the recorded list is named
"P50 Regression". -/
theorem claim_c4_witness :
    (evaluate_checks 1.1 5 0 (some 10) "ns" 20 none).all
      (fun c => c.name != "P50 Regression") = true := by
  have h := claim_c4 1.1 5 0 (some 10) "ns" 20 none
    ⟨{ name := "P50 Hard Limit", passed := false,
       reason := "Exceeds hard limit (20 > 10 ns)" }, by decide, rfl, rfl⟩
  rw [List.all_eq_true]
  intro c hcmem
  simpa using h c hcmem

/-- Claim C8: in each of the three ratio checks a ratio exactly equal to
its threshold is recorded as passing; the comparison is strictly
greater-than. -/
theorem claim_c8 (threshold baseline_p50 baseline_p99 : ℚ)
    (hard_limit : Option ℚ) (unit : String) (current_median : ℚ)
    (current_p99 : Option ℚ) (c : Check)
    (hc : c ∈ evaluate_checks threshold baseline_p50 baseline_p99 hard_limit
        unit current_median current_p99) :
    (c.name = "P50 Regression" → current_median / baseline_p50 = threshold →
      c.passed = true) ∧
    (c.name = "P99 Regression" → ∀ p, current_p99 = some p →
      p / baseline_p99 = P99_REGRESSION_THRESHOLD → c.passed = true) ∧
    (c.name = "P99/P50 Ratio" → ∀ p, current_p99 = some p →
      p / current_median = P99_MEDIAN_RATIO_MAX → c.passed = true) := by
  rcases evaluate_checks_mem hc with h | h | h
  · rcases (p50_check_mem h).2 with ⟨-, hn, -⟩ | ⟨-, hn, hp⟩
    · refine ⟨fun h1 => absurd (hn.symm.trans h1) (by decide),
        fun h1 => absurd (hn.symm.trans h1) (by decide),
        fun h1 => absurd (hn.symm.trans h1) (by decide)⟩
    · refine ⟨fun _ heq => hp.mpr ?_,
        fun h1 => absurd (hn.symm.trans h1) (by decide),
        fun h1 => absurd (hn.symm.trans h1) (by decide)⟩
      rw [heq]
      exact lt_irrefl threshold
  · obtain ⟨p, hp99, -, hn, hp⟩ := p99_check_mem h
    refine ⟨fun h1 => absurd (hn.symm.trans h1) (by decide),
      fun _ q hq heq => hp.mpr ?_,
      fun h1 => absurd (hn.symm.trans h1) (by decide)⟩
    rw [hp99] at hq
    injection hq with hq
    rw [hq, heq]
    exact lt_irrefl _
  · obtain ⟨p, hp99, -, hn, hp⟩ := ratio_check_mem h
    refine ⟨fun h1 => absurd (hn.symm.trans h1) (by decide),
      fun h1 => absurd (hn.symm.trans h1) (by decide),
      fun _ q hq heq => hp.mpr ?_⟩
    rw [hp99] at hq
    injection hq with hq
    rw [hq, heq]
    exact lt_irrefl _

/-- The "P50 Regression" check recorded for threshold 1.1, baseline p50 10
and current median 11 (ratio exactly the threshold). -/
def c8_p50_instance : Check :=
  { name := "P50 Regression", passed := true,
    reason := "P50 " ++ toString ((11 : ℚ) / 10) ++ " of baseline" }

/-- The "P99 Regression" check recorded for baseline p99 10 and current
tail 15 (ratio exactly P99_REGRESSION_THRESHOLD). -/
def c8_p99_instance : Check :=
  { name := "P99 Regression", passed := true,
    reason := "P99 " ++ toString ((15 : ℚ) / 10) ++ " of baseline" }

/-- Witness for C8: with threshold 1.1, baseline p50 = 10 and current
median 11 the median ratio equals the threshold exactly and the recorded
"P50 Regression" check passes; the recorded tail check at ratio exactly
the tail threshold passes as well. -/
theorem claim_c8_witness :
    (11 : ℚ) / 10 = 1.1 ∧ (15 : ℚ) / 10 = P99_REGRESSION_THRESHOLD ∧
    c8_p50_instance.passed = true ∧ c8_p99_instance.passed = true := by
  have hm50 : c8_p50_instance ∈ evaluate_checks 1.1 10 10 none "us" 11 (some 15) := by
    unfold evaluate_checks
    refine List.mem_append_left _ (List.mem_append_left _ ?_)
    simp only [p50_check, exceeds_hard_limit]
    rw [if_pos (by norm_num : (0:ℚ) < 10)]
    rw [if_neg (by simp : ¬ (false = true))]
    rw [if_neg (by norm_num : ¬ (1.1 : ℚ) < 11 / 10)]
    exact List.mem_singleton_self _
  have hm99 : c8_p99_instance ∈ evaluate_checks 1.1 10 10 none "us" 11 (some 15) := by
    unfold evaluate_checks
    refine List.mem_append_left _ (List.mem_append_right _ ?_)
    simp only [p99_check]
    rw [if_pos (by norm_num : (0:ℚ) < 10)]
    rw [if_neg (by rw [P99_REGRESSION_THRESHOLD]; norm_num :
      ¬ P99_REGRESSION_THRESHOLD < (15 : ℚ) / 10)]
    exact List.mem_singleton_self _
  have h1 := claim_c8 1.1 10 10 none "us" 11 (some 15) c8_p50_instance hm50
  have h2 := claim_c8 1.1 10 10 none "us" 11 (some 15) c8_p99_instance hm99
  refine ⟨by norm_num, ?_, h1.1 rfl (by norm_num), h2.2.1 rfl 15 rfl ?_⟩
  · rw [P99_REGRESSION_THRESHOLD]
    norm_num
  · rw [P99_REGRESSION_THRESHOLD]
    norm_num

/-- Claim C5: for every evaluated verdict, no failing check yields
PASS / "All checks passed"; with at least one failing check the status is
REGRESSION exactly when some failing check's name contains the substring
"Regression" (and FAIL otherwise), and the reason joins the failing
checks' reasons. -/
theorem claim_c5 (checks : List Check) :
    ((∀ c ∈ checks, c.passed = true) →
      determine_status checks = (Status.PASS, "All checks passed")) ∧
    ((∃ c ∈ checks, c.passed = false) →
      ((determine_status checks).1 = Status.REGRESSION ↔
        ∃ c ∈ checks, c.passed = false ∧ ("Regression").data <:+: c.name.data) ∧
      ((determine_status checks).1 = Status.REGRESSION ∨
        (determine_status checks).1 = Status.FAIL) ∧
      (determine_status checks).2 =
        String.intercalate "; "
          ((checks.filter fun c => !c.passed).map Check.reason)) := by
  constructor
  · intro hall
    have hnil : (checks.filter fun c => !c.passed) = [] := by
      rw [List.filter_eq_nil_iff]
      intro a ha
      simp [hall a ha]
    simp [determine_status, hnil]
  · rintro ⟨c0, hc0, hcp⟩
    have hne : (checks.filter fun c => !c.passed) ≠ [] := by
      intro hnil
      have h := List.filter_eq_nil_iff.mp hnil c0 hc0
      simp [hcp] at h
    have hds1 : (determine_status checks).1 =
        if (checks.filter fun c => !c.passed).any
            (fun c => substr_mem "Regression" c.name)
          then Status.REGRESSION else Status.FAIL := by
      simp only [determine_status, if_neg hne]
    have hds2 : (determine_status checks).2 =
        String.intercalate "; "
          ((checks.filter fun c => !c.passed).map Check.reason) := by
      simp only [determine_status, if_neg hne]
    refine ⟨?_, ?_, hds2⟩
    · rw [hds1]
      by_cases hr : ((checks.filter fun c => !c.passed).any fun c =>
          substr_mem "Regression" c.name) = true
      · rw [if_pos hr]
        constructor
        · intro _
          obtain ⟨a, haf, hpa⟩ := List.any_eq_true.mp hr
          obtain ⟨hamem, hapass⟩ := List.mem_filter.mp haf
          exact ⟨a, hamem, by simpa using hapass,
            by simpa [substr_mem, decide_eq_true_eq] using hpa⟩
        · intro _
          rfl
      · rw [if_neg hr]
        constructor
        · intro h
          exact absurd h (by decide)
        · rintro ⟨a, hamem, hapass, hinf⟩
          exfalso
          apply hr
          refine List.any_eq_true.mpr
            ⟨a, List.mem_filter.mpr ⟨hamem, by simp [hapass]⟩, ?_⟩
          simpa [substr_mem, decide_eq_true_eq] using hinf
    · rw [hds1]
      by_cases hr : ((checks.filter fun c => !c.passed).any fun c =>
          substr_mem "Regression" c.name) = true
      · rw [if_pos hr]
        exact Or.inl rfl
      · rw [if_neg hr]
        exact Or.inr rfl

/-- Witness for C5: the empty check list yields PASS, and a concrete list
with a failing hard-limit check and a failing regression check yields
REGRESSION with the joined reason. -/
theorem claim_c5_witness :
    determine_status [] = (Status.PASS, "All checks passed") ∧
    (determine_status
      [{ name := "P50 Hard Limit", passed := false, reason := "r1" },
       { name := "P99 Regression", passed := false, reason := "r2" }]).1
      = Status.REGRESSION ∧
    (determine_status
      [{ name := "P50 Hard Limit", passed := false, reason := "r1" },
       { name := "P99 Regression", passed := false, reason := "r2" }]).2
      = "r1; r2" := by
  have h0 := (claim_c5 []).1 (by simp)
  have h := (claim_c5
    [{ name := "P50 Hard Limit", passed := false, reason := "r1" },
     { name := "P99 Regression", passed := false, reason := "r2" }]).2
    ⟨{ name := "P50 Hard Limit", passed := false, reason := "r1" },
     by simp, rfl⟩
  refine ⟨h0,
    h.1.mpr ⟨{ name := "P99 Regression", passed := false, reason := "r2" },
      by simp, rfl, by decide⟩, ?_⟩
  rw [h.2.2]
  decide

/-- Claim C1: in strict-tail mode, a benchmark whose baseline declares a
positive tail expectation, whose median was extracted but whose tail could
not be, is classified FAIL (not SKIP) with a reason naming the tail (P99)
extraction failure. -/
theorem claim_c1 (threshold : ℚ) (benchmark_name : String)
    (config : BenchConfig) (est : Estimates) (m : ℚ)
    (hmed : extract_median_ns est = some m)
    (htail : (extract_p99_ns est benchmark_name).1 = none)
    (hexp : 0 < resolve_baseline_p99 config) :
    (check_benchmark threshold true benchmark_name config
        (.estimates est)).1.status = Status.FAIL ∧
      (check_benchmark threshold true benchmark_name config
          (.estimates est)).1.reason =
        "Could not extract P99 from estimates (baseline requires P99)" := by
  have h : check_benchmark threshold true benchmark_name config (.estimates est)
      = ({ status := .FAIL,
           reason := "Could not extract P99 from estimates (baseline requires P99)",
           checks := [] }, true) := by
    simp only [check_benchmark, hmed]
    rw [if_pos ⟨htail, hexp, by trivial⟩]
  rw [h]
  exact ⟨rfl, rfl⟩

/-- The baseline entry of the C1 witness: p99 expectation 500. -/
def c1_entry : BenchConfig :=
  { unit := some "ns", p50 := some 100, p99 := some 500, hard_limit := none,
    legacy_tail := none }

/-- The run summary of the C1 witness: a median of 5 ns, no mean and no
std_dev, so no tail can be extracted. -/
def c1_estimates : Estimates :=
  { mean := none, median := some (.object (some 5) none), std_dev := none,
    slope := none }

/-- Witness for C1 at the concrete strict-mode inputs. -/
theorem claim_c1_witness :
    (check_benchmark 1.1 true "b" c1_entry
        (.estimates c1_estimates)).1.status = Status.FAIL ∧
      (check_benchmark 1.1 true "b" c1_entry
          (.estimates c1_estimates)).1.reason =
        "Could not extract P99 from estimates (baseline requires P99)" :=
  claim_c1 1.1 "b" c1_entry c1_estimates 5 (by decide) (by decide) (by decide)

theorem determine_status_flag (checks : List Check) :
    (checks.any fun c => !c.passed) = false ↔
      ((determine_status checks).1 ≠ Status.FAIL ∧
        (determine_status checks).1 ≠ Status.REGRESSION) := by
  by_cases hnil : (checks.filter fun c => !c.passed) = []
  · have hds : (determine_status checks).1 = Status.PASS := by
      simp only [determine_status, if_pos hnil]
    rw [hds]
    constructor
    · intro _
      exact ⟨by simp, by simp⟩
    · intro _
      rw [List.any_eq_false]
      intro a ha
      have h := List.filter_eq_nil_iff.mp hnil a ha
      simpa using h
  · have hany : (checks.any fun c => !c.passed) = true := by
      obtain ⟨a, ha⟩ := List.exists_mem_of_ne_nil _ hnil
      obtain ⟨h1, h2⟩ := List.mem_filter.mp ha
      exact List.any_eq_true.mpr ⟨a, h1, h2⟩
    rw [hany]
    have hcases : (determine_status checks).1 = Status.REGRESSION ∨
        (determine_status checks).1 = Status.FAIL := by
      simp only [determine_status, if_neg hnil]
      by_cases hr : ((checks.filter fun c => !c.passed).any fun c =>
          substr_mem "Regression" c.name) = true
      · rw [if_pos hr]
        exact Or.inl rfl
      · rw [if_neg hr]
        exact Or.inr rfl
    constructor
    · intro h
      exact absurd h (by decide)
    · rintro ⟨h1, h2⟩
      rcases hcases with h | h
      · exact absurd h h2
      · exact absurd h h1

theorem check_benchmark_flag (threshold : ℚ) (strict_p99 : Bool)
    (benchmark_name : String) (config : BenchConfig) (run : RunData) :
    (check_benchmark threshold strict_p99 benchmark_name config run).2 = false ↔
      ((check_benchmark threshold strict_p99 benchmark_name config
          run).1.status ≠ Status.FAIL ∧
        (check_benchmark threshold strict_p99 benchmark_name config
            run).1.status ≠ Status.REGRESSION) := by
  cases run with
  | noPath => simp [check_benchmark]
  | noEstimates => simp [check_benchmark]
  | estimates est =>
    cases hmed : extract_median_ns est with
    | none => simp [check_benchmark, hmed]
    | some m =>
      by_cases hcond : (extract_p99_ns est benchmark_name).1 = none ∧
          0 < resolve_baseline_p99 config ∧ strict_p99 = true
      · simp only [check_benchmark, hmed]
        rw [if_pos hcond]
        simp
      · by_cases hunit : config.unit.getD "ns" ∈ SUPPORTED_UNITS
        · simp only [check_benchmark, hmed]
          rw [if_neg hcond, if_pos hunit]
          exact determine_status_flag _
        · simp only [check_benchmark, hmed]
          rw [if_neg hcond, if_neg hunit]
          simp

/-- Claim C6: the aggregate boolean returned by check_regression is true
iff no verdict in the returned results has status FAIL or REGRESSION; in
particular any number of SKIP verdicts with all others PASS yields true. -/
theorem claim_c6 (threshold : ℚ) (strict_p99 : Bool) (runs : String → RunData)
    (benchmarks : List (String × BenchConfig)) :
    ((check_regression threshold strict_p99 runs benchmarks).1 = true ↔
      ∀ p ∈ (check_regression threshold strict_p99 runs benchmarks).2,
        p.2.status ≠ Status.FAIL ∧ p.2.status ≠ Status.REGRESSION) ∧
    ((∀ p ∈ (check_regression threshold strict_p99 runs benchmarks).2,
        p.2.status = Status.SKIP ∨ p.2.status = Status.PASS) →
      (check_regression threshold strict_p99 runs benchmarks).1 = true) := by
  have main : (check_regression threshold strict_p99 runs benchmarks).1 = true ↔
      ∀ p ∈ (check_regression threshold strict_p99 runs benchmarks).2,
        p.2.status ≠ Status.FAIL ∧ p.2.status ≠ Status.REGRESSION := by
    induction benchmarks with
    | nil => simp [check_regression]
    | cons b rest ih =>
      obtain ⟨name, config⟩ := b
      simp only [check_regression, Bool.and_eq_true, Bool.not_eq_true',
        List.forall_mem_cons]
      exact and_congr
        (check_benchmark_flag threshold strict_p99 name config (runs name)) ih
  refine ⟨main, fun h => main.mpr fun p hp => ?_⟩
  rcases h p hp with h1 | h1 <;> rw [h1] <;> exact ⟨by simp, by simp⟩

/-- A baseline entry used by the C6 witness. -/
def c6_entry : BenchConfig :=
  { unit := some "ns", p50 := some 100, p99 := some 400,
    hard_limit := some 1000, legacy_tail := none }

/-- A filesystem with no results at all: every benchmark is SKIP. -/
def c6_runs : String → RunData := fun _ => RunData.noPath

/-- Witness for C6: two declared benchmarks with no results on disk are
both SKIP and the aggregate flag stays true. -/
theorem claim_c6_witness :
    (check_regression 1.1 true c6_runs [("b1", c6_entry), ("b2", c6_entry)]).1
      = true :=
  (claim_c6 1.1 true c6_runs [("b1", c6_entry), ("b2", c6_entry)]).2 (by decide)

end EdgeVec
